import Mathlib

/-!
A shallow embedding of `src/connection/UndiciConnection.ts` from
elastic-transport-js: the `Connection` class built on an undici `Pool`.

The embedding models the constructor validation (lines 49-78), the
`isUndiciAgentOptions` helper (lines 180-188) and the whole `request`
method (lines 80-171) as pure Lean functions.  Host-environment pieces
(the undici transport, the event loop timer, the UTF-8 decoder and the
runtime buffer/string ceilings) enter as explicit inputs in an `Env`
record, so every observable decision the TypeScript code makes is a
computable function of its inputs.
-/

set_option autoImplicit false

namespace UndiciConnection

/-- The error taxonomy of `src/errors` as used by this file, plus the bare
`TypeError` thrown for malformed paths (line 109), which is distinct from
the four domain errors. -/
inductive DomainError where
  | configurationError (message : String)
  | timeoutError (message : String)
  | requestAbortedError (message : String)
  | connectionError (message : String)
  | typeError (message : String)
deriving DecidableEq, Repr

/-- The constructor tag of a `DomainError`, used to state that error
classification depends only on the failure category, never on message
text. -/
inductive ErrorKind where
  | configuration | timeout | requestAborted | connection | typeErr
deriving DecidableEq, Repr

def DomainError.kind : DomainError → ErrorKind
  | .configurationError _ => .configuration
  | .timeoutError _ => .timeout
  | .requestAbortedError _ => .requestAborted
  | .connectionError _ => .connection
  | .typeError _ => .typeErr

/-- A JavaScript number as far as the content-length logic needs it:
either `NaN` or an integer value.  (`Number(header)` on a content-length
header is an integer whenever it is a number at all.) -/
inductive JsNum where
  | nan
  | num (v : Int)
deriving DecidableEq, Repr

/-- JavaScript `>` on a possibly-NaN left operand: `NaN > x` is `false`
for every `x`. -/
def JsNum.gtInt : JsNum → Int → Bool
  | .nan, _ => false
  | .num v, m => v > m

/-- How JavaScript stringifies the parsed number inside the error
messages of lines 137 and 140 (`NaN` never reaches a message because
`NaN > x` is always false). -/
def JsNum.render : JsNum → String
  | .nan => "NaN"
  | .num v => toString v

/-- Numeric value of a list of decimal digit characters. -/
def digitsVal (cs : List Char) : Nat :=
  cs.foldl (fun a c => a * 10 + (c.toNat - 48)) 0

/-- Modelled from the spec: the host runtime's `Number(string)` coercion
used at line 134 (`Number(response.headers['content-length'])`), which is
not code of this repository.  Restricted to the shapes a content-length
header can sensibly take: the empty string coerces to `0`, an
optional-sign string of decimal digits coerces to its value, and every
other string yields `NaN`. -/
def jsNumber (s : String) : JsNum :=
  match s.data with
  | [] => .num 0
  | '-' :: rest =>
    if !rest.isEmpty && rest.all Char.isDigit then .num (-(digitsVal rest : Int)) else .nan
  | cs =>
    if cs.all Char.isDigit then .num (digitsVal cs) else .nan

/-- First value bound to key `k` in an association-list model of a
JavaScript header object (keys of a JS object are unique). -/
def lookupHeader (hs : List (String × String)) (k : String) : Option String :=
  match hs.find? (fun kv => kv.fst = k) with
  | some kv => some kv.snd
  | none => none

/-- `Object.assign({}, this.headers, params.headers)` (line 84) as a
lookup function: the per-call header wins key-by-key over the connection
default. -/
def mergeHeaders (defaults perCall : List (String × String)) (k : String) : Option String :=
  match lookupHeader perCall k with
  | some v => some v
  | none => lookupHeader defaults k

/-- Final path of line 83: `params.path` plus `?` and the querystring
exactly when the querystring is neither null nor the empty string. -/
def buildPath (path : String) (querystring : Option String) : String :=
  match querystring with
  | none => path
  | some qs => if qs = "" then path else path ++ "?" ++ qs

/-- `INVALID_PATH_REGEX = /[^!-ÿ]/` (line 41): a character is
invalid when its code point lies outside `0x21`-`0xff`. -/
def isInvalidPathChar (c : Char) : Bool :=
  c.toNat < 0x21 || 0xff < c.toNat

/-- `INVALID_PATH_REGEX.test(path)` (line 108): some character of the
final path is outside the allowed range. -/
def hasInvalidPath (s : String) : Bool :=
  s.data.any isInvalidPathChar

/-- ASCII lowercase of a string, modelling `String.prototype.toLowerCase`
on the header values at issue (line 129). -/
def lowercase (s : String) : String :=
  String.mk (s.data.map Char.toLower)

/-- `a.includes(b)` on strings (line 130): `b` occurs as a contiguous
substring of `a`. -/
def containsSubstr (s sub : String) : Bool :=
  decide (sub.data <:+: s.data)

/-- `content-encoding` inspection of lines 129-130: lowercase the header
(defaulting to the empty string) and test for `gzip` or `deflate`. -/
def isCompressedOf (respHeaders : List (String × String)) : Bool :=
  let contentEncoding := lowercase ((lookupHeader respHeaders "content-encoding").getD "")
  containsSubstr contentEncoding "gzip" || containsSubstr contentEncoding "deflate"

/-- The per-connection state that `request` reads: the default headers,
the default timeout (`this.timeout`) and the identity of the
`EventEmitter` stored under `kEmitter`, created once in the constructor
(line 64) and shared by every call on this connection. -/
structure ConnState where
  headers : List (String × String)
  timeout : Nat
  emitterId : Nat
deriving DecidableEq, Repr

/-- The fields of `ConnectionRequestParams` that `request` reads.  An
`abortController`, when supplied, is identified by a numeric id so that
distinct handles can be told apart. -/
structure RequestParams where
  method : String
  path : String
  querystring : Option String
  headers : List (String × String)
  body : Option String
  timeout : Option Nat
  abortController : Option Nat
deriving DecidableEq, Repr

/-- The cancellation signal handed to the transport (line 86): the
external abort controller's signal when one was supplied, otherwise the
connection's `kEmitter`. -/
inductive Signal where
  | external (controllerId : Nat)
  | internal (emitterId : Nat)
deriving DecidableEq, Repr

/-- `params.abortController?.signal ?? this[kEmitter]` (line 86). -/
def governingSignal (conn : ConnState) (params : RequestParams) : Signal :=
  match params.abortController with
  | some i => .external i
  | none => .internal conn.emitterId

/-- What the timer callback of lines 97-104 does when it fires: abort the
external controller if one was supplied, otherwise emit `abort` on the
connection's shared `kEmitter`. -/
inductive CancelEffect where
  | abortExternal (controllerId : Nat)
  | emitInternal (emitterId : Nat)
deriving DecidableEq, Repr

/-- The cancellation triggered by the timer callback (lines 99-103). -/
def timerFireEffect (conn : ConnState) (params : RequestParams) : CancelEffect :=
  match params.abortController with
  | some i => .abortExternal i
  | none => .emitInternal conn.emitterId

/-- Whether a cancellation effect aborts a call governed by the given
signal: aborting a controller aborts calls using that controller's
signal, and emitting on an emitter aborts calls using that emitter. -/
def effectAborts (eff : CancelEffect) (sig : Signal) : Bool :=
  match eff, sig with
  | .abortExternal i, .external j => i = j
  | .emitInternal i, .internal j => i = j
  | _, _ => false

/-- Whether the local one-shot timer is armed (line 96):
`params.timeout != null && params.timeout !== this.timeout`. -/
def armTimer (paramTimeout : Option Nat) (connTimeout : Nat) : Bool :=
  paramTimeout.isSome && paramTimeout != some connTimeout

/-- A failure reported by `pool.request`: undici errors carry a `code`
(absent on foreign errors) and a message. -/
structure TransportError where
  code : Option String
  message : String
deriving DecidableEq, Repr

/-- A successful transport response: status, headers, the body stream as
a finite sequence of byte chunks, and (when the stream fails mid-read)
the message of the error the stream raises while being consumed. -/
structure TransportResponse where
  statusCode : Nat
  headers : List (String × String)
  chunks : List (List Nat)
  streamError : Option String
deriving DecidableEq, Repr

/-- Host-environment inputs of one `request` call: how `pool.request`
settles, whether the armed local timer fires before the call completes,
the runtime ceilings `buffer.constants.MAX_LENGTH` and
`buffer.constants.MAX_STRING_LENGTH` (lines 42-43), and the runtime's
UTF-8 decoder used by `setEncoding('utf8')` (line 158). -/
structure Env where
  transport : Except TransportError TransportResponse
  timerFires : Bool
  maxBufferLength : Int
  maxStringLength : Int
  utf8Decode : List Nat → String

/-- The body of a `ConnectionRequestResponse`: a byte buffer for
compressed payloads, a decoded string otherwise — never both. -/
inductive Body where
  | buffer (bytes : List Nat)
  | text (s : String)
deriving DecidableEq, Repr

/-- The success value of `request`. -/
structure ConnectionRequestResponse where
  statusCode : Nat
  headers : List (String × String)
  body : Body
deriving DecidableEq, Repr

/-- The request object handed to `pool.request` (lines 81-87), with the
merged headers as a lookup function. -/
structure SentRequest where
  method : String
  path : String
  headers : String → Option String
  body : Option String
  signal : Signal

/-- The `switch (err.code)` of lines 119-126: abort-type failures become
`TimeoutError` or `RequestAbortedError` depending on the local
`timedout` flag, header-phase timeouts become `TimeoutError`, everything
else becomes `ConnectionError` carrying the underlying message. -/
def classifyTransportError (timedout : Bool) (err : TransportError) : DomainError :=
  if err.code = some "UND_ERR_ABORTED" then
    if timedout then .timeoutError "Request timed out" else .requestAbortedError "Request aborted"
  else if err.code = some "UND_ERR_HEADERS_TIMEOUT" then
    .timeoutError "Request timed out"
  else
    .connectionError err.message

/-- Message of line 137. -/
def bufferCeilingMsg (contentLength : JsNum) (maxBufferLength : Int) : String :=
  let r := contentLength.render
  let m := toString maxBufferLength
  "The content length (" ++ r ++ ") is bigger than the maximum allowed buffer (" ++ m ++ ")"

/-- Message of line 140. -/
def stringCeilingMsg (contentLength : JsNum) (maxStringLength : Int) : String :=
  let r := contentLength.render
  let m := toString maxStringLength
  "The content length (" ++ r ++ ") is bigger than the maximum allowed string (" ++ m ++ ")"

/-- The content-length guard of lines 133-142, run before any body bytes
are consumed: when the header is present it is coerced with `Number`;
a compressed payload whose declared length exceeds `MAX_BUFFER_LENGTH`
fails with the buffer-ceiling abort, and otherwise any payload whose
declared length exceeds `MAX_STRING_LENGTH` fails with the
string-ceiling abort.  `none` means the body may be consumed. -/
def checkContentLength (isCompressed : Bool) (clHeader : Option String)
    (maxBufferLength maxStringLength : Int) : Option DomainError :=
  match clHeader with
  | none => none
  | some s =>
    let contentLength := jsNumber s
    if isCompressed && contentLength.gtInt maxBufferLength then
      some (.requestAbortedError (bufferCeilingMsg contentLength maxBufferLength))
    else if contentLength.gtInt maxStringLength then
      some (.requestAbortedError (stringCeilingMsg contentLength maxStringLength))
    else
      none

/-- The body-assembly loop of lines 145-170: a mid-stream failure becomes
`ConnectionError`; otherwise a compressed body is the verbatim
concatenation of the raw chunks (`Buffer.concat`, line 154) and a text
body is the UTF-8 decoding of the concatenated bytes. -/
def assembleBody (decode : List Nat → String) (isCompressed : Bool)
    (resp : TransportResponse) : Except DomainError ConnectionRequestResponse :=
  match resp.streamError with
  | some m => .error (.connectionError m)
  | none =>
    if isCompressed then
      .ok ⟨resp.statusCode, resp.headers, .buffer resp.chunks.flatten⟩
    else
      .ok ⟨resp.statusCode, resp.headers, .text (decode resp.chunks.flatten)⟩

/-- Everything observable about one `request` call. -/
structure RequestResult where
  timerArmed : Bool
  timedoutFlag : Bool
  timerPendingAtExit : Bool
  transportCalled : Bool
  sent : Option SentRequest
  bodyDestroyed : Bool
  outcome : Except DomainError ConnectionRequestResponse

/-- The `request` method (lines 80-171).  In source order: the request
object (final path, merged headers, governing signal) is built first
(lines 81-87); the local timer is armed when `params.timeout` is set and
differs from the connection default (lines 94-105); the final path is
validated and a `TypeError` thrown on violation, without clearing the
timer (lines 108-110); the transport is delegated to, failures being
classified against the `timedout` flag (lines 114-127); the
content-length guard runs (lines 133-142), destroying the unread stream
on violation; and the body is assembled (lines 145-170). -/
def request (conn : ConnState) (params : RequestParams) (env : Env) : RequestResult :=
  let finalPath := buildPath params.path params.querystring
  let timerArmed := armTimer params.timeout conn.timeout
  let timedout := timerArmed && env.timerFires
  if hasInvalidPath finalPath then
    { timerArmed := timerArmed
      timedoutFlag := timedout
      timerPendingAtExit := timerArmed
      transportCalled := false
      sent := none
      bodyDestroyed := false
      outcome := .error (.typeError ("ERR_UNESCAPED_CHARACTERS: " ++ finalPath)) }
  else
    let sent : SentRequest :=
      { method := params.method
        path := finalPath
        headers := mergeHeaders conn.headers params.headers
        body := params.body
        signal := governingSignal conn params }
    match env.transport with
    | .error err =>
      { timerArmed := timerArmed
        timedoutFlag := timedout
        timerPendingAtExit := false
        transportCalled := true
        sent := some sent
        bodyDestroyed := false
        outcome := .error (classifyTransportError timedout err) }
    | .ok resp =>
      let isCompressed := isCompressedOf resp.headers
      match checkContentLength isCompressed (lookupHeader resp.headers "content-length")
          env.maxBufferLength env.maxStringLength with
      | some e =>
        { timerArmed := timerArmed
          timedoutFlag := timedout
          timerPendingAtExit := false
          transportCalled := true
          sent := some sent
          bodyDestroyed := true
          outcome := .error e }
      | none =>
        { timerArmed := timerArmed
          timedoutFlag := timedout
          timerPendingAtExit := false
          transportCalled := true
          sent := some sent
          bodyDestroyed := false
          outcome := assembleBody env.utf8Decode isCompressed resp }

/-- The agent options fields probed by `isUndiciAgentOptions` (lines
180-188); each flag records whether the field is non-null. -/
structure AgentRecord where
  keepAlive : Bool
  keepAliveMsecs : Bool
  maxSockets : Bool
  maxFreeSockets : Bool
  scheduling : Bool
  proxy : Bool
deriving DecidableEq, Repr

/-- The possible runtime shapes of `opts.agent` the constructor
distinguishes with `typeof` (line 56): a function, a boolean, or a plain
options object. -/
inductive AgentValue where
  | function
  | boolean (b : Bool)
  | object (o : AgentRecord)
deriving DecidableEq, Repr

/-- The fields of `ConnectionOptions` the constructor of lines 49-78
reads (the node URL reaches the pool through `this.url`). -/
structure ConnectionOptions where
  url : String
  proxy : Option String
  agent : Option AgentValue
deriving DecidableEq, Repr

/-- `isUndiciAgentOptions` (lines 180-188): an agent options object is
acceptable exactly when none of the fields reserved for the http agent
(`keepAlive`, `keepAliveMsecs`, `maxSockets`, `maxFreeSockets`,
`scheduling`, `proxy`) is non-null. -/
def isUndiciAgentOptions (o : AgentRecord) : Bool :=
  if o.keepAlive then false
  else if o.keepAliveMsecs then false
  else if o.maxSockets then false
  else if o.maxFreeSockets then false
  else if o.scheduling then false
  else if o.proxy then false
  else true

/-- Some field reserved for the http agent is non-null: the exact
disjunction `isUndiciAgentOptions` tests field-by-field. -/
def hasReservedAgentOption (o : AgentRecord) : Bool :=
  o.keepAlive || o.keepAliveMsecs || o.maxSockets || o.maxFreeSockets
    || o.scheduling || o.proxy

/-- The transport handle created at line 65, bound to the node URL. -/
structure Pool where
  url : String
deriving DecidableEq, Repr

/-- The constructor (lines 49-78): reject a non-null proxy, then an agent
that is a function or a boolean, then an agent object carrying reserved
options; otherwise create exactly one pool bound to the node URL. -/
def buildConnection (opts : ConnectionOptions) : Except DomainError Pool :=
  if opts.proxy.isSome then
    .error (.configurationError "Undici connection can\u0027t work with proxies")
  else
    match opts.agent with
    | some .function =>
      .error (.configurationError "Undici connection agent options can\u0027t be a function or a boolean")
    | some (.boolean _) =>
      .error (.configurationError "Undici connection agent options can\u0027t be a function or a boolean")
    | some (.object o) =>
      if isUndiciAgentOptions o then .ok ⟨opts.url⟩
      else .error (.configurationError "Bad agent configuration for Undici agent")
    | none => .ok ⟨opts.url⟩

/-! Concrete sample inputs used to instantiate the theorems below. -/

/-- A sample connection: one default header, default timeout 30000 ms,
emitter id 0. -/
def sampleConn : ConnState := ⟨[("user-agent", "default")], 30000, 0⟩

/-- A sample response carrying a `content-length` header. -/
def sampleResp : TransportResponse :=
  ⟨200, [("content-length", "12")], [[123, 34]], none⟩

/-- A sample environment whose transport succeeds with `sampleResp`. -/
def sampleEnv : Env :=
  { transport := .ok sampleResp
    timerFires := false
    maxBufferLength := 4294967296
    maxStringLength := 536870888
    utf8Decode := fun bs => toString bs.length }

/-- A sample environment whose transport fails with an abort. -/
def sampleAbortEnv : Env :=
  { transport := .error ⟨some "UND_ERR_ABORTED", "aborted"⟩
    timerFires := true
    maxBufferLength := 4294967296
    maxStringLength := 536870888
    utf8Decode := fun bs => toString bs.length }

/-- Sample params: a well-formed path, a per-call timeout distinct from
the connection default, no external abort controller. -/
def sampleParams : RequestParams :=
  ⟨"GET", "/_search", some "q=1", [("user-agent", "per-call")], none, some 50, none⟩

/-- Sample params whose final path contains a space (code point `0x20`,
outside `0x21`-`0xff`). -/
def sampleBadParams : RequestParams :=
  ⟨"GET", "/a b", none, [], none, some 50, none⟩

/-- Sample params with no per-call timeout and no abort controller. -/
def samplePlainParams : RequestParams :=
  ⟨"GET", "/b", none, [], none, none, none⟩

/-- A gzip-encoded sample response without a content-length header. -/
def sampleGzipResp : TransportResponse :=
  ⟨200, [("content-encoding", "gzip")], [[1, 2], [3]], none⟩

/-- Environment delivering `sampleGzipResp`. -/
def sampleGzipEnv : Env :=
  { transport := .ok sampleGzipResp
    timerFires := false
    maxBufferLength := 4294967296
    maxStringLength := 536870888
    utf8Decode := fun bs => toString bs.length }

/-- A compressed response declaring 100 bytes against tiny ceilings. -/
def sampleOversizeResp : TransportResponse :=
  ⟨200, [("content-encoding", "gzip"), ("content-length", "100")], [[1]], none⟩

/-- Environment delivering `sampleOversizeResp` with a 50-byte buffer
ceiling and a 20-byte string ceiling. -/
def sampleOversizeEnv : Env :=
  { transport := .ok sampleOversizeResp
    timerFires := false
    maxBufferLength := 50
    maxStringLength := 20
    utf8Decode := fun bs => toString bs.length }

/-- A response whose content-length header is not numeric. -/
def sampleNanResp : TransportResponse :=
  ⟨200, [("content-length", "abc")], [[1], [2]], none⟩

/-- Environment delivering `sampleNanResp`. -/
def sampleNanEnv : Env :=
  { transport := .ok sampleNanResp
    timerFires := false
    maxBufferLength := 4294967296
    maxStringLength := 536870888
    utf8Decode := fun bs => toString bs.length }

end UndiciConnection

namespace UndiciConnection

/-! Helper lemmas shared by the claim theorems. -/

/-- The `timerArmed` field of the result is `armTimer` of the call's
timeout against the connection default, on every control path. -/
theorem request_timerArmed (conn : ConnState) (params : RequestParams) (env : Env) :
    (request conn params env).timerArmed = armTimer params.timeout conn.timeout := by
  simp only [request]
  split
  · rfl
  · split
    · rfl
    · split <;> rfl

/-- The `timedoutFlag` field of the result on every control path. -/
theorem request_timedoutFlag (conn : ConnState) (params : RequestParams) (env : Env) :
    (request conn params env).timedoutFlag
      = (armTimer params.timeout conn.timeout && env.timerFires) := by
  simp only [request]
  split
  · rfl
  · split
    · rfl
    · split <;> rfl

/-- On an invalid final path, `request` returns the malformed-path
record: `TypeError`, no transport call, timer left pending. -/
theorem request_invalid_path (conn : ConnState) (params : RequestParams) (env : Env)
    (h : hasInvalidPath (buildPath params.path params.querystring) = true) :
    request conn params env =
      { timerArmed := armTimer params.timeout conn.timeout
        timedoutFlag := armTimer params.timeout conn.timeout && env.timerFires
        timerPendingAtExit := armTimer params.timeout conn.timeout
        transportCalled := false
        sent := none
        bodyDestroyed := false
        outcome := .error (.typeError
          ("ERR_UNESCAPED_CHARACTERS: " ++ buildPath params.path params.querystring)) } := by
  simp only [request, h, if_true]

/-- On a valid path and a transport failure, `request` classifies the
failure against the local `timedout` flag. -/
theorem request_transport_error (conn : ConnState) (params : RequestParams) (env : Env)
    (err : TransportError)
    (hpath : hasInvalidPath (buildPath params.path params.querystring) = false)
    (htr : env.transport = .error err) :
    (request conn params env).outcome
      = .error (classifyTransportError
          (armTimer params.timeout conn.timeout && env.timerFires) err)
    ∧ (request conn params env).transportCalled = true
    ∧ (request conn params env).timerPendingAtExit = false := by
  simp only [request, hpath, htr, Bool.false_eq_true, if_false]
  exact ⟨trivial, trivial, trivial⟩

/-- On a valid path and a transport success, the result is the guard
verdict followed by body assembly. -/
theorem request_transport_ok (conn : ConnState) (params : RequestParams) (env : Env)
    (resp : TransportResponse)
    (hpath : hasInvalidPath (buildPath params.path params.querystring) = false)
    (htr : env.transport = .ok resp) :
    (request conn params env).outcome
      = (match checkContentLength (isCompressedOf resp.headers)
            (lookupHeader resp.headers "content-length")
            env.maxBufferLength env.maxStringLength with
        | some e => .error e
        | none => assembleBody env.utf8Decode (isCompressedOf resp.headers) resp)
    ∧ (request conn params env).bodyDestroyed
      = (checkContentLength (isCompressedOf resp.headers)
            (lookupHeader resp.headers "content-length")
            env.maxBufferLength env.maxStringLength).isSome
    ∧ (request conn params env).transportCalled = true := by
  simp only [request, hpath, Bool.false_eq_true, if_false, htr]
  split <;> simp_all

/-- The request object handed to the transport on a valid path. -/
theorem request_sent (conn : ConnState) (params : RequestParams) (env : Env)
    (hpath : hasInvalidPath (buildPath params.path params.querystring) = false) :
    (request conn params env).sent = some
      { method := params.method
        path := buildPath params.path params.querystring
        headers := mergeHeaders conn.headers params.headers
        body := params.body
        signal := governingSignal conn params } := by
  simp only [request, hpath, Bool.false_eq_true, if_false]
  split
  · rfl
  · split <;> rfl

/-- A string occurs inside the concatenation that surrounds it. -/
theorem containsSubstr_of_surround (a b c : String) :
    containsSubstr (a ++ b ++ c) b = true := by
  simp only [containsSubstr, decide_eq_true_eq]
  exact ⟨a.data, c.data, by simp [String.data_append]⟩

/-- C5: for every final path (after appending the querystring) that
contains a character outside `0x21`-`0xff`, `request` fails synchronously
with the malformed-path `TypeError`, which is distinct from the four
domain errors, and no transport-level request is started for that call. -/
theorem C5_invalid_path_rejected (conn : ConnState) (params : RequestParams) (env : Env)
    (h : hasInvalidPath (buildPath params.path params.querystring) = true) :
    (request conn params env).outcome
      = .error (.typeError
          ("ERR_UNESCAPED_CHARACTERS: " ++ buildPath params.path params.querystring))
    ∧ (request conn params env).transportCalled = false
    ∧ (request conn params env).sent = none
    ∧ (∀ m,
        DomainError.typeError
            ("ERR_UNESCAPED_CHARACTERS: " ++ buildPath params.path params.querystring)
          ≠ .configurationError m
        ∧ DomainError.typeError
            ("ERR_UNESCAPED_CHARACTERS: " ++ buildPath params.path params.querystring)
          ≠ .timeoutError m
        ∧ DomainError.typeError
            ("ERR_UNESCAPED_CHARACTERS: " ++ buildPath params.path params.querystring)
          ≠ .requestAbortedError m
        ∧ DomainError.typeError
            ("ERR_UNESCAPED_CHARACTERS: " ++ buildPath params.path params.querystring)
          ≠ .connectionError m)
    ∧ (∃ c ∈ (buildPath params.path params.querystring).data,
        c.toNat < 0x21 ∨ 0xff < c.toNat) := by
  rw [request_invalid_path conn params env h]
  refine ⟨rfl, rfl, rfl, fun m => ⟨by simp, by simp, by simp, by simp⟩, ?_⟩
  have h2 := h
  simp only [hasInvalidPath, List.any_eq_true, isInvalidPathChar, Bool.or_eq_true,
    decide_eq_true_eq] at h2
  exact h2

/-- C5 witness: a concrete call whose path contains a space. -/
theorem C5_invalid_path_rejected_witness :
    hasInvalidPath (buildPath sampleBadParams.path sampleBadParams.querystring) = true
    ∧ (request sampleConn sampleBadParams sampleEnv).transportCalled = false :=
  ⟨by decide,
   (C5_invalid_path_rejected sampleConn sampleBadParams sampleEnv (by decide)).2.1⟩

/-- C9: for every call with an invalid final path and a per-call timeout
that is set and differs from the connection default, the local timer is
armed before path validation runs and is left pending when the
malformed-path error is thrown, so its eventual firing aborts the
external handle (if supplied) or triggers the Connection-internal
signal, even though no transport request was ever started. -/
theorem C9_timer_survives_path_error (conn : ConnState) (params : RequestParams) (env : Env)
    (harm : armTimer params.timeout conn.timeout = true)
    (hpath : hasInvalidPath (buildPath params.path params.querystring) = true) :
    (request conn params env).timerArmed = true
    ∧ (request conn params env).timerPendingAtExit = true
    ∧ (request conn params env).transportCalled = false
    ∧ (request conn params env).outcome
      = .error (.typeError
          ("ERR_UNESCAPED_CHARACTERS: " ++ buildPath params.path params.querystring))
    ∧ (∀ i, params.abortController = some i →
        timerFireEffect conn params = .abortExternal i)
    ∧ (params.abortController = none →
        timerFireEffect conn params = .emitInternal conn.emitterId) := by
  rw [request_invalid_path conn params env hpath]
  refine ⟨harm, harm, rfl, rfl, ?_, ?_⟩
  · intro i hi; simp [timerFireEffect, hi]
  · intro hnone; simp [timerFireEffect, hnone]

/-- C9 witness: a concrete malformed-path call with a 50 ms override on a
30000 ms connection, without an external abort controller. -/
theorem C9_timer_survives_path_error_witness :
    armTimer sampleBadParams.timeout sampleConn.timeout = true
    ∧ hasInvalidPath (buildPath sampleBadParams.path sampleBadParams.querystring) = true
    ∧ (request sampleConn sampleBadParams sampleEnv).timerPendingAtExit = true
    ∧ timerFireEffect sampleConn sampleBadParams = .emitInternal sampleConn.emitterId :=
  ⟨by decide, by decide,
   (C9_timer_survives_path_error sampleConn sampleBadParams sampleEnv
      (by decide) (by decide)).2.1,
   (C9_timer_survives_path_error sampleConn sampleBadParams sampleEnv
      (by decide) (by decide)).2.2.2.2.2 rfl⟩

/-- C2: the local one-shot timer is armed if and only if `params.timeout`
is set and differs from the connection default; when it fires before the
call completes the call is marked timed out locally and the cancellation
targets the external abort handle when one was supplied, otherwise the
Connection-internal signal; with no override (or one equal to the
default) no timer is armed. -/
theorem C2_local_timer (conn : ConnState) (params : RequestParams) (env : Env) :
    ((request conn params env).timerArmed
        = (params.timeout.isSome && params.timeout != some conn.timeout))
    ∧ ((request conn params env).timerArmed = true ↔
        (params.timeout ≠ none ∧ params.timeout ≠ some conn.timeout))
    ∧ ((request conn params env).timerArmed = true → env.timerFires = true →
        (request conn params env).timedoutFlag = true)
    ∧ (∀ i, params.abortController = some i →
        timerFireEffect conn params = .abortExternal i)
    ∧ (params.abortController = none →
        timerFireEffect conn params = .emitInternal conn.emitterId)
    ∧ ((params.timeout = none ∨ params.timeout = some conn.timeout) →
        (request conn params env).timerArmed = false) := by
  rw [request_timerArmed, request_timedoutFlag]
  refine ⟨rfl, ?_, ?_, ?_, ?_, ?_⟩
  · cases h : params.timeout with
    | none => simp [armTimer]
    | some t => simp [armTimer, bne_iff_ne]
  · intro harm hfire
    rw [harm, hfire]; rfl
  · intro i hi; simp [timerFireEffect, hi]
  · intro hnone; simp [timerFireEffect, hnone]
  · rintro (h | h) <;> simp [armTimer, h]

/-- C2 witness: a 50 ms override on a 30000 ms connection arms the
timer, and with no external controller the firing targets the internal
emitter; a call with no override arms nothing. -/
theorem C2_local_timer_witness :
    (request sampleConn sampleParams sampleAbortEnv).timerArmed = true
    ∧ (request sampleConn sampleParams sampleAbortEnv).timedoutFlag = true
    ∧ timerFireEffect sampleConn sampleParams = .emitInternal sampleConn.emitterId
    ∧ (request sampleConn samplePlainParams sampleEnv).timerArmed = false :=
  ⟨(C2_local_timer sampleConn sampleParams sampleAbortEnv).2.1.mpr
      (by exact ⟨by decide, by decide⟩),
   (C2_local_timer sampleConn sampleParams sampleAbortEnv).2.2.1
      (by rw [request_timerArmed]; decide) rfl,
   (C2_local_timer sampleConn sampleParams sampleAbortEnv).2.2.2.2.1 rfl,
   (C2_local_timer sampleConn samplePlainParams sampleEnv).2.2.2.2.2 (Or.inl rfl)⟩

/-- `isUndiciAgentOptions` rejects exactly the records with some
reserved field non-null. -/
theorem isUndiciAgentOptions_eq_false_iff (o : AgentRecord) :
    isUndiciAgentOptions o = false ↔
      (o.keepAlive = true ∨ o.keepAliveMsecs = true ∨ o.maxSockets = true
       ∨ o.maxFreeSockets = true ∨ o.scheduling = true ∨ o.proxy = true) := by
  rcases o with ⟨k1, k2, k3, k4, k5, k6⟩
  cases k1 <;> cases k2 <;> cases k3 <;> cases k4 <;> cases k5 <;> cases k6 <;> decide

/-- `isUndiciAgentOptions` accepts exactly the records with no reserved
field set. -/
theorem isUndiciAgentOptions_eq_not_reserved (o : AgentRecord) :
    isUndiciAgentOptions o = !hasReservedAgentOption o := by
  rcases o with ⟨k1, k2, k3, k4, k5, k6⟩
  cases k1 <;> cases k2 <;> cases k3 <;> cases k4 <;> cases k5 <;> cases k6 <;> decide

/-- C1: every transport failure of `request` is classified by the
transport-reported failure category and the local timed-out flag alone:
abort-type failures (`UND_ERR_ABORTED`) become `TimeoutError` when the
local timer fired and `RequestAbortedError` otherwise, header-phase
timeouts (`UND_ERR_HEADERS_TIMEOUT`) become `TimeoutError`, any other
failure — including a failure while consuming the body stream — becomes
`ConnectionError` carrying the underlying message; message text never
affects the classification. -/
theorem C1_error_classification (conn : ConnState) (params : RequestParams) (env : Env) :
    (∀ err : TransportError,
        hasInvalidPath (buildPath params.path params.querystring) = false →
        env.transport = .error err →
        (request conn params env).outcome
          = .error (classifyTransportError
              (armTimer params.timeout conn.timeout && env.timerFires) err))
    ∧ (∀ (err : TransportError) (timedout : Bool),
        err.code = some "UND_ERR_ABORTED" →
        classifyTransportError timedout err
          = if timedout then .timeoutError "Request timed out"
            else .requestAbortedError "Request aborted")
    ∧ (∀ (err : TransportError) (timedout : Bool),
        err.code = some "UND_ERR_HEADERS_TIMEOUT" →
        classifyTransportError timedout err = .timeoutError "Request timed out")
    ∧ (∀ (err : TransportError) (timedout : Bool),
        err.code ≠ some "UND_ERR_ABORTED" →
        err.code ≠ some "UND_ERR_HEADERS_TIMEOUT" →
        classifyTransportError timedout err = .connectionError err.message)
    ∧ (∀ (code : Option String) (timedout : Bool) (m1 m2 : String),
        (classifyTransportError timedout ⟨code, m1⟩).kind
          = (classifyTransportError timedout ⟨code, m2⟩).kind)
    ∧ (∀ (resp : TransportResponse) (m : String),
        hasInvalidPath (buildPath params.path params.querystring) = false →
        env.transport = .ok resp →
        checkContentLength (isCompressedOf resp.headers)
          (lookupHeader resp.headers "content-length")
          env.maxBufferLength env.maxStringLength = none →
        resp.streamError = some m →
        (request conn params env).outcome = .error (.connectionError m)) := by
  refine ⟨?_, ?_, ?_, ?_, ?_, ?_⟩
  · intro err hpath htr
    exact (request_transport_error conn params env err hpath htr).1
  · intro err timedout h
    simp [classifyTransportError, h]
  · intro err timedout h
    simp [classifyTransportError, h]
  · intro err timedout h1 h2
    simp [classifyTransportError, h1, h2]
  · intro code timedout m1 m2
    by_cases h1 : code = some "UND_ERR_ABORTED"
    · cases timedout <;> simp [classifyTransportError, h1, DomainError.kind]
    · by_cases h2 : code = some "UND_ERR_HEADERS_TIMEOUT" <;>
        simp [classifyTransportError, h1, h2, DomainError.kind]
  · intro resp m hpath htr hcheck hse
    have h := (request_transport_ok conn params env resp hpath htr).1
    rw [h, hcheck]
    simp [assembleBody, hse]

/-- C1 witness: an aborted transport call whose 50 ms local timer fired
surfaces as `TimeoutError`. -/
theorem C1_error_classification_witness :
    (request sampleConn sampleParams sampleAbortEnv).outcome
      = .error (.timeoutError "Request timed out") := by
  have h := (C1_error_classification sampleConn sampleParams sampleAbortEnv).1
    ⟨some "UND_ERR_ABORTED", "aborted"⟩ (by decide) rfl
  rw [h]
  have hc : classifyTransportError
      (armTimer sampleParams.timeout sampleConn.timeout && sampleAbortEnv.timerFires)
      ⟨some "UND_ERR_ABORTED", "aborted"⟩ = .timeoutError "Request timed out" := by decide
  rw [hc]

/-- C4 counterexample: two distinct calls on the same connection, neither
with an external abort controller, share the connection-wide internal
signal (created once in the constructor, not once per call), and
triggering the first call's cancellation aborts the second. -/
theorem C4_counterexample :
    sampleParams ≠ samplePlainParams
    ∧ sampleParams.abortController = none
    ∧ samplePlainParams.abortController = none
    ∧ governingSignal sampleConn sampleParams
      = governingSignal sampleConn samplePlainParams
    ∧ effectAborts (timerFireEffect sampleConn sampleParams)
        (governingSignal sampleConn samplePlainParams) = true := by
  refine ⟨by decide, rfl, rfl, rfl, by decide⟩

/-- C4 (amended): the Connection-internal signal is created once per
Connection and shared by every call without an external abort handle;
triggering one call's cancellation aborts another in-flight call exactly
when both calls lack an external handle or both carry the same external
handle, and calls with distinct external handles never affect each
other. -/
theorem C4_signal_scoping (conn : ConnState) (p1 p2 : RequestParams) :
    (effectAborts (timerFireEffect conn p1) (governingSignal conn p2) = true ↔
        ((p1.abortController = none ∧ p2.abortController = none)
         ∨ (∃ i, p1.abortController = some i ∧ p2.abortController = some i)))
    ∧ (∀ i j, p1.abortController = some i → p2.abortController = some j → i ≠ j →
        effectAborts (timerFireEffect conn p1) (governingSignal conn p2) = false)
    ∧ ((p1.abortController = none ∧ p2.abortController = none) →
        governingSignal conn p1 = governingSignal conn p2) := by
  refine ⟨?_, ?_, ?_⟩
  · cases h1 : p1.abortController <;> cases h2 : p2.abortController <;>
      simp [timerFireEffect, governingSignal, effectAborts, h1, h2]
    exact eq_comm
  · intro i j hi hj hne
    simp [timerFireEffect, governingSignal, effectAborts, hi, hj, hne]
  · rintro ⟨h1, h2⟩
    simp [governingSignal, h1, h2]

/-- C4 (amended) witness: calls with distinct external handles do not
abort each other. -/
theorem C4_signal_scoping_witness :
    effectAborts
      (timerFireEffect sampleConn ⟨"GET", "/x", none, [], none, none, some 1⟩)
      (governingSignal sampleConn ⟨"GET", "/y", none, [], none, none, some 2⟩) = false :=
  (C4_signal_scoping sampleConn ⟨"GET", "/x", none, [], none, none, some 1⟩
      ⟨"GET", "/y", none, [], none, none, some 2⟩).2.1 1 2 rfl rfl (by decide)

/-- C7: construction fails with `ConfigurationError` exactly when a
non-null proxy is supplied, the agent options are a function or a
boolean, or they set an option reserved for the http agent (`keepAlive`,
`keepAliveMsecs`, `maxSockets`, `maxFreeSockets`, `scheduling`,
`proxy`); every construction failure is a `ConfigurationError`, no pool
exists on failure, and otherwise exactly one pool bound to the node URL
is created. -/
theorem C7_constructor_validation (opts : ConnectionOptions) :
    ((∃ m, buildConnection opts = .error (.configurationError m)) ↔
        (opts.proxy.isSome = true
         ∨ opts.agent = some .function
         ∨ (∃ b, opts.agent = some (.boolean b))
         ∨ (∃ o, opts.agent = some (.object o) ∧ hasReservedAgentOption o = true)))
    ∧ (∀ e, buildConnection opts = .error e → ∃ m, e = .configurationError m)
    ∧ (∀ p, buildConnection opts = .ok p → p = ⟨opts.url⟩)
    ∧ (¬(opts.proxy.isSome = true
         ∨ opts.agent = some .function
         ∨ (∃ b, opts.agent = some (.boolean b))
         ∨ (∃ o, opts.agent = some (.object o) ∧ hasReservedAgentOption o = true)) →
        buildConnection opts = .ok ⟨opts.url⟩)
    ∧ (∀ o : AgentRecord, hasReservedAgentOption o = true ↔
        (o.keepAlive = true ∨ o.keepAliveMsecs = true ∨ o.maxSockets = true
         ∨ o.maxFreeSockets = true ∨ o.scheduling = true ∨ o.proxy = true)) := by
  have hres : ∀ o : AgentRecord, hasReservedAgentOption o = true ↔
      (o.keepAlive = true ∨ o.keepAliveMsecs = true ∨ o.maxSockets = true
       ∨ o.maxFreeSockets = true ∨ o.scheduling = true ∨ o.proxy = true) := by
    intro o
    rcases o with ⟨k1, k2, k3, k4, k5, k6⟩
    cases k1 <;> cases k2 <;> cases k3 <;> cases k4 <;> cases k5 <;> cases k6 <;> decide
  obtain ⟨url, proxy, agent⟩ := opts
  rcases proxy with _ | pv
  · rcases agent with _ | av
    · exact ⟨by simp [buildConnection], by simp [buildConnection],
        by simp [buildConnection], by simp [buildConnection], hres⟩
    · rcases av with _ | b | o
      · exact ⟨by simp [buildConnection], by simp [buildConnection],
          by simp [buildConnection], by simp [buildConnection], hres⟩
      · exact ⟨by simp [buildConnection], by simp [buildConnection],
          by simp [buildConnection], by simp [buildConnection], hres⟩
      · by_cases h : hasReservedAgentOption o = true
        · refine ⟨?_, ?_, ?_, ?_, hres⟩ <;>
            simp [buildConnection, isUndiciAgentOptions_eq_not_reserved, h]
        · refine ⟨?_, ?_, ?_, ?_, hres⟩ <;>
            simp [buildConnection, isUndiciAgentOptions_eq_not_reserved,
              Bool.eq_false_iff.mpr h]
  · exact ⟨by simp [buildConnection], by simp [buildConnection],
      by simp [buildConnection], by simp [buildConnection], hres⟩

/-- C7 witness: a proxied construction fails with `ConfigurationError`,
and a plain construction creates the pool bound to the node URL. -/
theorem C7_constructor_validation_witness :
    (∃ m, buildConnection ⟨"http://localhost:9200/", some "http://proxy/", none⟩
        = .error (.configurationError m))
    ∧ buildConnection ⟨"http://localhost:9200/", none, none⟩
        = .ok ⟨"http://localhost:9200/"⟩ :=
  ⟨(C7_constructor_validation ⟨"http://localhost:9200/", some "http://proxy/", none⟩).1.mpr
      (Or.inl rfl),
   (C7_constructor_validation ⟨"http://localhost:9200/", none, none⟩).2.2.2.1
      (by simp)⟩

/-- A value that exceeds a larger bound also exceeds a smaller one. -/
theorem JsNum.gtInt_mono (n : JsNum) (a b : Int) (hle : b ≤ a) (h : n.gtInt a = true) :
    n.gtInt b = true := by
  cases n with
  | nan => simp [JsNum.gtInt] at h
  | num v =>
    simp only [JsNum.gtInt, decide_eq_true_eq] at h ⊢
    omega

/-- Both distinguished pieces occur inside a five-part concatenation. -/
theorem containsSubstr_parts (p1 b p2 m p3 : String) :
    containsSubstr (p1 ++ b ++ p2 ++ m ++ p3) b = true
    ∧ containsSubstr (p1 ++ b ++ p2 ++ m ++ p3) m = true := by
  constructor
  · simp only [containsSubstr, decide_eq_true_eq]
    exact ⟨p1.data, (p2 ++ m ++ p3).data, by simp [String.data_append]⟩
  · simp only [containsSubstr, decide_eq_true_eq]
    exact ⟨(p1 ++ b ++ p2).data, p3.data, by simp [String.data_append]⟩

/-- C8: the transport is given the final path — `params.path` with `?`
plus the querystring appended exactly when it is non-null and non-empty
— and final headers equal to the connection defaults overridden
key-by-key by the per-call headers, the per-call value winning on every
shared key. -/
theorem C8_request_normalization (conn : ConnState) (params : RequestParams) (env : Env)
    (hpath : hasInvalidPath (buildPath params.path params.querystring) = false) :
    (request conn params env).sent = some
      { method := params.method
        path := buildPath params.path params.querystring
        headers := mergeHeaders conn.headers params.headers
        body := params.body
        signal := governingSignal conn params }
    ∧ buildPath params.path params.querystring
      = params.path ++ (match params.querystring with
          | none => ""
          | some qs => if qs = "" then "" else "?" ++ qs)
    ∧ ((params.querystring = none ∨ params.querystring = some "") →
        buildPath params.path params.querystring = params.path)
    ∧ (∀ k v, lookupHeader params.headers k = some v →
        mergeHeaders conn.headers params.headers k = some v)
    ∧ (∀ k, lookupHeader params.headers k = none →
        mergeHeaders conn.headers params.headers k = lookupHeader conn.headers k) := by
  refine ⟨request_sent conn params env hpath, ?_, ?_, ?_, ?_⟩
  · cases h : params.querystring with
    | none => simp [buildPath]
    | some qs =>
      by_cases hq : qs = "" <;> simp [buildPath, hq, String.append_assoc]
  · rintro (h | h) <;> simp [buildPath, h]
  · intro k v hv
    simp [mergeHeaders, hv]
  · intro k hk
    simp [mergeHeaders, hk]

/-- C8 witness: querystring appended after `?`, and the per-call
`user-agent` header wins over the connection default. -/
theorem C8_request_normalization_witness :
    ((request sampleConn sampleParams sampleEnv).sent.map SentRequest.path)
      = some "/_search?q=1"
    ∧ mergeHeaders sampleConn.headers sampleParams.headers "user-agent"
      = some "per-call" := by
  have h := C8_request_normalization sampleConn sampleParams sampleEnv (by decide)
  constructor
  · rw [h.1]
    rfl
  · exact h.2.2.2.1 "user-agent" "per-call" (by decide)

/-- C10: a present content-length header that does not parse as a number
(`NaN`) makes both ceiling comparisons false: no size error is raised,
the body stream is not destroyed, and the body is consumed and returned
exactly as when no length was declared. -/
theorem C10_nan_content_length (conn : ConnState) (params : RequestParams) (env : Env)
    (resp : TransportResponse) (s : String)
    (hpath : hasInvalidPath (buildPath params.path params.querystring) = false)
    (htr : env.transport = .ok resp)
    (hcl : lookupHeader resp.headers "content-length" = some s)
    (hnan : jsNumber s = .nan) :
    checkContentLength (isCompressedOf resp.headers) (some s)
        env.maxBufferLength env.maxStringLength = none
    ∧ (request conn params env).bodyDestroyed = false
    ∧ (request conn params env).outcome
      = assembleBody env.utf8Decode (isCompressedOf resp.headers) resp
    ∧ checkContentLength (isCompressedOf resp.headers) none
        env.maxBufferLength env.maxStringLength = none := by
  have hnone : checkContentLength (isCompressedOf resp.headers) (some s)
      env.maxBufferLength env.maxStringLength = none := by
    simp [checkContentLength, hnan, JsNum.gtInt]
  have hok := request_transport_ok conn params env resp hpath htr
  refine ⟨hnone, ?_, ?_, by simp [checkContentLength]⟩
  · rw [hok.2.1, hcl, hnone]
    rfl
  · rw [hok.1, hcl, hnone]

/-- C10 witness: content-length `"abc"` is ignored and the two-chunk
body is decoded and returned. -/
theorem C10_nan_content_length_witness :
    jsNumber "abc" = .nan
    ∧ (request sampleConn samplePlainParams sampleNanEnv).bodyDestroyed = false
    ∧ (request sampleConn samplePlainParams sampleNanEnv).outcome
      = .ok ⟨200, [("content-length", "abc")], .text "2"⟩ := by
  have h := C10_nan_content_length sampleConn samplePlainParams sampleNanEnv
    sampleNanResp "abc" (by decide) rfl (by decide) (by decide)
  exact ⟨by decide, h.2.1, by rw [h.2.2.1]; rfl⟩

/-- C3: a declared content-length is validated before any body byte is
consumed: a compressed payload over the buffer ceiling is aborted with
the buffer message, any payload reaching the string-ceiling test and
exceeding it is aborted with the string message, the unread stream is
destroyed, both ceilings guard both payload kinds whenever the string
ceiling is the smaller one, and the abort messages state the declared
length and the violated ceiling. -/
theorem C3_content_length_ceilings (conn : ConnState) (params : RequestParams) (env : Env)
    (resp : TransportResponse) (s : String)
    (hpath : hasInvalidPath (buildPath params.path params.querystring) = false)
    (htr : env.transport = .ok resp)
    (hcl : lookupHeader resp.headers "content-length" = some s) :
    (isCompressedOf resp.headers = true →
        (jsNumber s).gtInt env.maxBufferLength = true →
        (request conn params env).bodyDestroyed = true
        ∧ (request conn params env).outcome
          = .error (.requestAbortedError
              (bufferCeilingMsg (jsNumber s) env.maxBufferLength)))
    ∧ ((isCompressedOf resp.headers = false
          ∨ (jsNumber s).gtInt env.maxBufferLength = false) →
        (jsNumber s).gtInt env.maxStringLength = true →
        (request conn params env).bodyDestroyed = true
        ∧ (request conn params env).outcome
          = .error (.requestAbortedError
              (stringCeilingMsg (jsNumber s) env.maxStringLength)))
    ∧ (env.maxStringLength ≤ env.maxBufferLength →
        ((jsNumber s).gtInt env.maxBufferLength = true
          ∨ (jsNumber s).gtInt env.maxStringLength = true) →
        ∃ m, checkContentLength (isCompressedOf resp.headers) (some s)
            env.maxBufferLength env.maxStringLength
          = some (.requestAbortedError m))
    ∧ (∀ e, checkContentLength (isCompressedOf resp.headers) (some s)
          env.maxBufferLength env.maxStringLength = some e →
        ∀ resp' : TransportResponse, resp'.headers = resp.headers →
        ∀ env' : Env, env'.transport = .ok resp' →
          env'.maxBufferLength = env.maxBufferLength →
          env'.maxStringLength = env.maxStringLength →
          (request conn params env').bodyDestroyed = true
          ∧ (request conn params env').outcome = .error e)
    ∧ containsSubstr (bufferCeilingMsg (jsNumber s) env.maxBufferLength)
        ((jsNumber s).render) = true
    ∧ containsSubstr (bufferCeilingMsg (jsNumber s) env.maxBufferLength)
        (toString env.maxBufferLength) = true
    ∧ containsSubstr (stringCeilingMsg (jsNumber s) env.maxStringLength)
        ((jsNumber s).render) = true
    ∧ containsSubstr (stringCeilingMsg (jsNumber s) env.maxStringLength)
        (toString env.maxStringLength) = true := by
  have hok := request_transport_ok conn params env resp hpath htr
  refine ⟨?_, ?_, ?_, ?_, ?_, ?_, ?_, ?_⟩
  · intro hic hgt
    have hcheck : checkContentLength (isCompressedOf resp.headers) (some s)
        env.maxBufferLength env.maxStringLength
        = some (.requestAbortedError (bufferCeilingMsg (jsNumber s) env.maxBufferLength)) := by
      simp [checkContentLength, hic, hgt]
    exact ⟨by rw [hok.2.1, hcl, hcheck]; rfl, by rw [hok.1, hcl, hcheck]⟩
  · intro hfirst hgt
    have hand : (isCompressedOf resp.headers && (jsNumber s).gtInt env.maxBufferLength)
        = false := by
      rcases hfirst with h | h <;> simp [h]
    have hcheck : checkContentLength (isCompressedOf resp.headers) (some s)
        env.maxBufferLength env.maxStringLength
        = some (.requestAbortedError (stringCeilingMsg (jsNumber s) env.maxStringLength)) := by
      simp [checkContentLength, hand, hgt]
    exact ⟨by rw [hok.2.1, hcl, hcheck]; rfl, by rw [hok.1, hcl, hcheck]⟩
  · intro hle hgt
    cases hb : (isCompressedOf resp.headers && (jsNumber s).gtInt env.maxBufferLength) with
    | true =>
      exact ⟨bufferCeilingMsg (jsNumber s) env.maxBufferLength,
        by simp [checkContentLength, hb]⟩
    | false =>
      have hstr : (jsNumber s).gtInt env.maxStringLength = true := by
        rcases hgt with h | h
        · exact JsNum.gtInt_mono _ _ _ hle h
        · exact h
      exact ⟨stringCeilingMsg (jsNumber s) env.maxStringLength,
        by simp [checkContentLength, hb, hstr]⟩
  · intro e hce resp' hh env' htr' hmb hms
    have hok' := request_transport_ok conn params env' resp' hpath htr'
    constructor
    · rw [hok'.2.1, hh, hcl, hmb, hms, hce]
      rfl
    · rw [hok'.1, hh, hcl, hmb, hms, hce]
  · simp only [bufferCeilingMsg]
    exact (containsSubstr_parts _ _ _ _ _).1
  · simp only [bufferCeilingMsg]
    exact (containsSubstr_parts _ _ _ _ _).2
  · simp only [stringCeilingMsg]
    exact (containsSubstr_parts _ _ _ _ _).1
  · simp only [stringCeilingMsg]
    exact (containsSubstr_parts _ _ _ _ _).2

/-- C3 witness: a gzip response declaring 100 bytes against a 50-byte
buffer ceiling is destroyed unread and aborted with the buffer
message. -/
theorem C3_content_length_ceilings_witness :
    isCompressedOf sampleOversizeResp.headers = true
    ∧ (jsNumber "100").gtInt sampleOversizeEnv.maxBufferLength = true
    ∧ (request sampleConn samplePlainParams sampleOversizeEnv).bodyDestroyed = true
    ∧ (request sampleConn samplePlainParams sampleOversizeEnv).outcome
      = .error (.requestAbortedError
          "The content length (100) is bigger than the maximum allowed buffer (50)") := by
  have h := (C3_content_length_ceilings sampleConn samplePlainParams sampleOversizeEnv
    sampleOversizeResp "100" (by decide) rfl (by decide)).1 (by decide) (by decide)
  refine ⟨by decide, by decide, h.1, ?_⟩
  rw [h.2]
  have : bufferCeilingMsg (jsNumber "100") sampleOversizeEnv.maxBufferLength
      = "The content length (100) is bigger than the maximum allowed buffer (50)" := by
    decide
  rw [this]

/-- C6: a successful body is treated as compressed exactly when the
lowercased content-encoding header contains `gzip` or `deflate`; a
compressed body is returned as the verbatim concatenation of the raw
chunks, any other body as the UTF-8 decoding of the concatenated
chunks, and the outcome populates exactly one of the two
representations. -/
theorem C6_body_representation (conn : ConnState) (params : RequestParams) (env : Env)
    (resp : TransportResponse)
    (hpath : hasInvalidPath (buildPath params.path params.querystring) = false)
    (htr : env.transport = .ok resp)
    (hcheck : checkContentLength (isCompressedOf resp.headers)
        (lookupHeader resp.headers "content-length")
        env.maxBufferLength env.maxStringLength = none)
    (hstream : resp.streamError = none) :
    ((request conn params env).outcome
      = .ok ⟨resp.statusCode, resp.headers,
          if isCompressedOf resp.headers then Body.buffer resp.chunks.flatten
          else Body.text (env.utf8Decode resp.chunks.flatten)⟩)
    ∧ (isCompressedOf resp.headers = true ↔
        (containsSubstr
            (lowercase ((lookupHeader resp.headers "content-encoding").getD "")) "gzip" = true
         ∨ containsSubstr
            (lowercase ((lookupHeader resp.headers "content-encoding").getD "")) "deflate" = true))
    ∧ (∀ hs1 hs2 : List (String × String),
        lowercase ((lookupHeader hs1 "content-encoding").getD "")
          = lowercase ((lookupHeader hs2 "content-encoding").getD "") →
        isCompressedOf hs1 = isCompressedOf hs2)
    ∧ (∀ (bs : List Nat) (t : String), Body.buffer bs ≠ Body.text t) := by
  refine ⟨?_, ?_, ?_, ?_⟩
  · rw [(request_transport_ok conn params env resp hpath htr).1, hcheck]
    simp only [assembleBody, hstream]
    by_cases hic : isCompressedOf resp.headers <;> simp [hic]
  · simp [isCompressedOf, Bool.or_eq_true]
  · intro hs1 hs2 h
    simp [isCompressedOf, h]
  · intro bs t
    simp

/-- C6 witness: a gzip response comes back as the verbatim byte buffer
of its chunks. -/
theorem C6_body_representation_witness :
    (request sampleConn samplePlainParams sampleGzipEnv).outcome
      = .ok ⟨200, [("content-encoding", "gzip")], .buffer [1, 2, 3]⟩ := by
  have h := (C6_body_representation sampleConn samplePlainParams sampleGzipEnv
    sampleGzipResp (by decide) rfl (by decide) rfl).1
  rw [h]
  rfl

end UndiciConnection
